import Mathlib

/-!
Verification development for the workflow task scheduler of the
orchestration engine (src/app/lib/.server/llm/orchestration-engine.ts).

The embedding below translates the data model (OrchestrationTask,
OrchestrationWorkflow) and the operations createWorkflow, executeTask,
executeHybridWorkflow and the hybrid branch of executeWorkflow into pure
Lean functions.  JavaScript mutation of task objects is made explicit by
returning updated records; the unbounded while-loop of
executeHybridWorkflow is given explicit fuel and returns none exactly
when the fuel runs out with work still pending (which corresponds to the
JS loop running forever; with the fuel chosen as the number of tasks this
never happens for a positive parallel width, as proved below).
Wall-clock fields (startTime, endTime, executionTime) and the free-form
result payload are not modelled: no claim depends on them.
-/

namespace BoltEcho

/-- Task status, source: 'pending' | 'in-progress' | 'completed' | 'failed'. -/
inductive TaskStatus
  | pending
  | inProgress
  | completed
  | failed
deriving DecidableEq

/-- Task priority, source: 'low' | 'medium' | 'high' | 'critical'. -/
inductive TaskPriority
  | low
  | medium
  | high
  | critical
deriving DecidableEq

/-- Task kind, source: 'generate' | 'analyze' | 'refactor' | 'debug' |
'explain' | 'synthesize'. -/
inductive TaskType
  | generate
  | analyze
  | refactor
  | debug
  | explain
  | synthesize
deriving DecidableEq

/-- OrchestrationTask (description and the timing/result payload fields are
omitted: no claim mentions them). -/
structure OrchestrationTask where
  id : String
  type : TaskType
  priority : TaskPriority
  dependencies : List String
  assignedAgent : Option String
  status : TaskStatus
deriving DecidableEq

/-- Workflow execution mode, source: 'sequential' | 'parallel' | 'hybrid'. -/
inductive ExecutionMode
  | sequential
  | parallel
  | hybrid
deriving DecidableEq

/-- Workflow status, source: 'initialized' | 'running' | 'completed' |
'failed' (the first constructor is named initial here). -/
inductive WorkflowStatus
  | initial
  | running
  | completed
  | failed
deriving DecidableEq

/-- OrchestrationWorkflow; coordinationRules is flattened into the fields
maxParallelTasks and synthesisRequired (retryOnFailure is read only by the
sequential branch, which no claim concerns). -/
structure OrchestrationWorkflow where
  id : String
  tasks : List OrchestrationTask
  executionMode : ExecutionMode
  maxParallelTasks : Nat
  synthesisRequired : Bool
  status : WorkflowStatus
deriving DecidableEq

/-- Execution environment: the registered agent ids (the keys of
OrchestrationEngine.agents) and the task invocation.  invoke t = true
models simulateTaskExecution returning; invoke t = false models the
invocation throwing (the actual simulateTaskExecution never throws, which
is the environment trueEnv below). -/
structure Env where
  agents : List String
  invoke : OrchestrationTask → Bool

/-- The five agent ids registered by initializeDefaultAgents. -/
def defaultAgents : List String :=
  ["orchestrator-main", "specialist-code", "specialist-architecture",
   "reflective-analyst", "synthesizer-main"]

/-- Environment matching the shipped engine: default agents, and
simulateTaskExecution never throws. -/
def trueEnv : Env :=
  { agents := defaultAgents, invoke := fun _ => true }

/-- selectAgentForTask: switch on task.type; 'explain' falls through to the
default branch returning 'orchestrator-main'. -/
def selectAgentForTask (task : OrchestrationTask) : String :=
  match task.type with
  | TaskType.generate => "specialist-code"
  | TaskType.refactor => "specialist-code"
  | TaskType.debug => "specialist-code"
  | TaskType.analyze => "specialist-architecture"
  | TaskType.synthesize => "synthesizer-main"
  | TaskType.explain => "orchestrator-main"

/-- The agent id a task is dispatched to: executeTask keeps
task.assignedAgent unless it is absent (or the empty string, which is
falsy in JS), in which case selectAgentForTask picks one. -/
def resolveAgent (task : OrchestrationTask) : String :=
  match task.assignedAgent with
  | none => selectAgentForTask task
  | some s => if s = "" then selectAgentForTask task else s

/-- The record executeTask resolves with: { success, result, agent,
executionTime } (result and executionTime omitted, see the file header). -/
structure TaskSettlement where
  success : Bool
  agent : String
deriving DecidableEq

/-- The task object as executeTask mutates it before invoking the agent:
status 'in-progress' and the resolved agent recorded. -/
def startedWith (task : OrchestrationTask) (agentId : String) :
    OrchestrationTask :=
  { task with status := TaskStatus.inProgress, assignedAgent := some agentId }

/-- executeTask.  Sets status to 'in-progress', resolves the agent, and:
if the agent id is not registered, resolves with success=false and status
'failed'; if the invocation throws, resolves with success=false and status
'failed'; otherwise resolves with success=true and status 'completed'.
It always resolves (the source catches every error), so it is a total
function here.  The returned task is the mutated task object. -/
def executeTask (env : Env) (task : OrchestrationTask) :
    OrchestrationTask × TaskSettlement :=
  let agentId := resolveAgent task
  let assigned : OrchestrationTask := startedWith task agentId
  if env.agents.contains agentId then
    if env.invoke assigned then
      ({ assigned with status := TaskStatus.completed },
       { success := true, agent := agentId })
    else
      ({ assigned with status := TaskStatus.failed },
       { success := false, agent := agentId })
  else
    ({ assigned with status := TaskStatus.failed },
     { success := false, agent := agentId })

/-- The transformation createWorkflow applies to the task at a given
index: spread the input task, overriding its id with
workflowId-task-index and its status with 'pending'. -/
def renamedTask (workflowId : String) (i : Nat) (t : OrchestrationTask) :
    OrchestrationTask :=
  { t with id := workflowId ++ "-task-" ++ toString i, status := TaskStatus.pending }

/-- createWorkflow id rewriting: tasks.map((task, index) => ({ ...task,
id: workflowId-task-index, status: 'pending' })). -/
def assignIds (workflowId : String) : Nat → List OrchestrationTask →
    List OrchestrationTask
  | _, [] => []
  | i, t :: ts => renamedTask workflowId i t :: assignIds workflowId (i + 1) ts

/-- createWorkflow.  The source generates workflowId from Date.now() and
Math.random(); it is a parameter here.  No validation of any kind is
performed: the function is total and the result's status is 'initialized'
(constructor initial). -/
def createWorkflow (workflowId name description : String)
    (tasks : List OrchestrationTask) (executionMode : ExecutionMode) :
    OrchestrationWorkflow :=
  { id := workflowId
    tasks := assignIds workflowId 0 tasks
    executionMode := executionMode
    maxParallelTasks :=
      if executionMode = ExecutionMode.parallel then tasks.length else 3
    synthesisRequired := true
    status := WorkflowStatus.initial }

/-- State of the executeHybridWorkflow loop: remainingTasks, the
completedTasks id set (a list queried by membership), the executed tasks
with their final mutated status in settlement order, and the results
array. -/
structure HybridState where
  remaining : List OrchestrationTask
  completedTasks : List String
  settled : List OrchestrationTask
  results : List TaskSettlement
deriving DecidableEq

/-- readyTasks: remainingTasks.filter(task =>
task.dependencies.every(depId => completedTasks.has(depId))). -/
def readyTasks (completedTasks : List String)
    (remaining : List OrchestrationTask) : List OrchestrationTask :=
  remaining.filter fun t =>
    t.dependencies.all fun d => completedTasks.contains d

/-- remainingTasks.splice at findIndex(t => t.id === id): removes the
first task whose id matches. -/
def removeFirstById (id : String) : List OrchestrationTask →
    List OrchestrationTask
  | [] => []
  | t :: ts => if t.id = id then ts else t :: removeFirstById id ts

/-- One iteration of the executeHybridWorkflow while-loop body once the
ready set is known nonempty: batch = readyTasks.slice(0,
maxParallelTasks); every batch member is executed; since executeTask
always resolves, every allSettled element is fulfilled, so every batch
task id is added to completedTasks and every settlement is pushed to
results; each batch task is removed from remainingTasks.  Returns the new
state and the dispatched batch. -/
def runRound (env : Env) (maxParallelTasks : Nat) (st : HybridState) :
    HybridState × List OrchestrationTask :=
  let batch :=
    (readyTasks st.completedTasks st.remaining).take maxParallelTasks
  let executed := batch.map fun t => executeTask env t
  ({ remaining := batch.foldl (fun r t => removeFirstById t.id r) st.remaining
     completedTasks := st.completedTasks ++ batch.map fun t => t.id
     settled := st.settled ++ executed.map Prod.fst
     results := st.results ++ executed.map Prod.snd },
   batch)

/-- The loop guard: the while condition remainingTasks.length > 0 merged
with the break when readyTasks is empty (circular dependency or all
remaining tasks blocked). -/
def hybridDone (st : HybridState) : Bool :=
  st.remaining.isEmpty ||
    (readyTasks st.completedTasks st.remaining).isEmpty

/-- The executeHybridWorkflow loop with explicit fuel.  Returns the final
state and the list of dispatched batches (one per round); none when the
fuel is exhausted with the guard still false, which is how this embedding
renders a diverging loop. -/
def runHybrid (env : Env) (maxParallelTasks : Nat) :
    Nat → HybridState → Option (HybridState × List (List OrchestrationTask))
  | 0, st => if hybridDone st then some (st, []) else none
  | fuel + 1, st =>
    if hybridDone st then some (st, [])
    else
      (runHybrid env maxParallelTasks fuel (runRound env maxParallelTasks st).1).map
        fun q => (q.1, (runRound env maxParallelTasks st).2 :: q.2)

/-- Initial loop state: remainingTasks = [...workflow.tasks],
completedTasks = new Set(), no settlements. -/
def initState (wf : OrchestrationWorkflow) : HybridState :=
  { remaining := wf.tasks, completedTasks := [], settled := [], results := [] }

/-- executeHybridWorkflow.  The fuel workflow.tasks.length is proved
sufficient whenever maxParallelTasks is positive (the shipped engine uses
3), so some/none exactly separates the terminating loop from the
diverging one. -/
def executeHybridWorkflow (env : Env) (wf : OrchestrationWorkflow) :
    Option (HybridState × List (List OrchestrationTask)) :=
  runHybrid env wf.maxParallelTasks wf.tasks.length (initState wf)

/-- The tasks of the workflow as mutated by the run: executed tasks carry
their terminal status, tasks never dispatched keep their original (pending)
status.  List order differs from workflow.tasks but every status count
used by executeWorkflow is preserved for distinct-id workflows. -/
def finalTasks (st : HybridState) : List OrchestrationTask :=
  st.settled ++ st.remaining

/-- The synthesis task appended by executeWorkflow when synthesisRequired
and results.length > 1. -/
def synthesisTask (workflowId : String) (taskIds : List String) :
    OrchestrationTask :=
  { id := workflowId ++ "-synthesis"
    type := TaskType.synthesize
    priority := TaskPriority.high
    dependencies := taskIds
    assignedAgent := some "synthesizer-main"
    status := TaskStatus.pending }

/-- Observable outcome of executeWorkflow: the returned success flag, the
results array, the two metric counters, the workflow status field after
the call, and the mutated tasks. -/
structure WorkflowOutcome where
  success : Bool
  results : List TaskSettlement
  tasksCompleted : Nat
  tasksFailed : Nat
  workflowStatus : WorkflowStatus
  finalTasks : List OrchestrationTask
deriving DecidableEq

/-- The hybrid branch of executeWorkflow.  After executeHybridWorkflow
returns, tasksCompleted/tasksFailed are counted over the mutated tasks, a
synthesis task is executed directly (no readiness check) when
synthesisRequired and more than one result was collected, and
workflow.status is set to 'completed' unconditionally: nothing inside the
try block can throw (executeTask never rejects), so the catch branch
setting 'failed' is unreachable and is not modelled. -/
def executeWorkflow (env : Env) (wf : OrchestrationWorkflow) :
    Option WorkflowOutcome :=
  match executeHybridWorkflow env wf with
  | none => none
  | some (st, _) =>
    let tasks := finalTasks st
    let tasksCompleted :=
      (tasks.filter fun t => t.status == TaskStatus.completed).length
    let tasksFailed :=
      (tasks.filter fun t => t.status == TaskStatus.failed).length
    let results :=
      if wf.synthesisRequired && decide (1 < st.results.length) then
        st.results ++
          [(executeTask env (synthesisTask wf.id (wf.tasks.map fun t => t.id))).2]
      else st.results
    some { success := tasksFailed == 0
           results := results
           tasksCompleted := tasksCompleted
           tasksFailed := tasksFailed
           workflowStatus := WorkflowStatus.completed
           finalTasks := tasks }

/-! Concrete workflows used by the scenario claims. -/

/-- A task literal used to build concrete workflows. -/
def mkTask (id : String) (deps : List String) : OrchestrationTask :=
  { id := id
    type := TaskType.generate
    priority := TaskPriority.high
    dependencies := deps
    assignedAgent := some "specialist-code"
    status := TaskStatus.pending }

/-- The two-task dependency cycle A: deps=[B], B: deps=[A]. -/
def cycleWorkflow : OrchestrationWorkflow :=
  { id := "wf-cycle"
    tasks := [mkTask "A" ["B"], mkTask "B" ["A"]]
    executionMode := ExecutionMode.hybrid
    maxParallelTasks := 3
    synthesisRequired := true
    status := WorkflowStatus.initial }

/-- A single task assigned to an unregistered agent id: its execution
fails. -/
def ghostTask : OrchestrationTask :=
  { mkTask "T" [] with assignedAgent := some "ghost-agent" }

/-- Workflow whose only task fails. -/
def ghostWorkflow : OrchestrationWorkflow :=
  { id := "wf-ghost"
    tasks := [ghostTask]
    executionMode := ExecutionMode.hybrid
    maxParallelTasks := 3
    synthesisRequired := true
    status := WorkflowStatus.initial }

/-- Two tasks where B depends on A and A fails (unregistered agent). -/
def failDepWorkflow : OrchestrationWorkflow :=
  { id := "wf-faildep"
    tasks := [{ mkTask "A" [] with assignedAgent := some "ghost-agent" },
              mkTask "B" ["A"]]
    executionMode := ExecutionMode.hybrid
    maxParallelTasks := 3
    synthesisRequired := true
    status := WorkflowStatus.initial }

/-- A low-priority task inserted before a critical-priority one, both
dependency-free. -/
def lowTask : OrchestrationTask :=
  { mkTask "L" [] with priority := TaskPriority.low }

/-- The critical-priority companion of lowTask. -/
def critTask : OrchestrationTask :=
  { mkTask "C" [] with priority := TaskPriority.critical }

/-- Workflow exercising batch selection with width 1: a low-priority task
ahead of a critical one in insertion order. -/
def priorityWorkflow : OrchestrationWorkflow :=
  { id := "wf-priority"
    tasks := [lowTask, critTask]
    executionMode := ExecutionMode.hybrid
    maxParallelTasks := 1
    synthesisRequired := true
    status := WorkflowStatus.initial }

/-- Scenario tasks {A: deps=[], B: deps=[], C: deps=[A,B]}. -/
def diamondA : OrchestrationTask := mkTask "A" []

/-- Second independent task of the scenario. -/
def diamondB : OrchestrationTask := mkTask "B" []

/-- The joining task of the scenario, depending on both A and B. -/
def diamondC : OrchestrationTask := mkTask "C" ["A", "B"]

/-- Scenario workflow with maxParallelWidth = 2. -/
def diamondWorkflow : OrchestrationWorkflow :=
  { id := "wf-diamond"
    tasks := [diamondA, diamondB, diamondC]
    executionMode := ExecutionMode.hybrid
    maxParallelTasks := 2
    synthesisRequired := true
    status := WorkflowStatus.initial }

/-! Invariants of the hybrid loop, shared by several claim theorems. -/

/-- Boolean membership on the completed-id set agrees with list
membership. -/
lemma contains_true_iff (l : List String) (s : String) :
    l.contains s = true ↔ s ∈ l := by
  simp [List.contains, List.elem_iff]

/-- A ready task is a remaining task all of whose dependency ids are in
the completed set. -/
lemma mem_readyTasks_iff (c : List String) (r : List OrchestrationTask)
    (t : OrchestrationTask) :
    t ∈ readyTasks c r ↔ t ∈ r ∧ ∀ d ∈ t.dependencies, d ∈ c := by
  simp only [readyTasks, List.mem_filter, List.all_eq_true, contains_true_iff]

/-- Removing the first task with a given id yields a sublist. -/
lemma removeFirstById_sublist (id : String) :
    ∀ l : List OrchestrationTask, (removeFirstById id l).Sublist l := by
  intro l
  induction l with
  | nil => simp [removeFirstById]
  | cons t ts ih =>
    simp only [removeFirstById]
    by_cases h : t.id = id
    · rw [if_pos h]; exact List.sublist_cons_self t ts
    · rw [if_neg h]; exact List.Sublist.cons₂ t ih

/-- Removing every batch member in turn yields a sublist of the original
remaining list. -/
lemma foldl_removeFirstById_sublist :
    ∀ (batch l : List OrchestrationTask),
      (batch.foldl (fun r t => removeFirstById t.id r) l).Sublist l := by
  intro batch
  induction batch with
  | nil => intro l; simp
  | cons b bs ih =>
    intro l
    simp only [List.foldl_cons]
    exact (ih _).trans (removeFirstById_sublist _ _)

/-- If some task with the given id is present, removal strictly shortens
the list. -/
lemma length_removeFirstById_lt (id : String) :
    ∀ l : List OrchestrationTask, (∃ x ∈ l, x.id = id) →
      (removeFirstById id l).length < l.length := by
  intro l
  induction l with
  | nil => rintro ⟨x, hx, _⟩; cases hx
  | cons t ts ih =>
    rintro ⟨x, hx, hid⟩
    simp only [removeFirstById]
    by_cases h : t.id = id
    · rw [if_pos h]
      simp only [List.length_cons]
      exact Nat.lt_succ_self _
    · rw [if_neg h]
      simp only [List.length_cons]
      refine Nat.succ_lt_succ (ih ?_)
      cases List.mem_cons.mp hx with
      | inl he => exact absurd (he ▸ hid) h
      | inr hm => exact ⟨x, hm, hid⟩

/-- Every dispatched round with a nonempty ready set and positive width
strictly reduces the number of remaining (non-terminal) tasks. -/
lemma runRound_remaining_lt (env : Env) (m : Nat) (st : HybridState)
    (hm : 1 ≤ m) (hne : readyTasks st.completedTasks st.remaining ≠ []) :
    (runRound env m st).1.remaining.length < st.remaining.length := by
  obtain ⟨t, ts, hready⟩ := List.exists_cons_of_ne_nil hne
  obtain ⟨m', rfl⟩ : ∃ m', m = m' + 1 := ⟨m - 1, by omega⟩
  have htmem : t ∈ st.remaining := by
    have ht : t ∈ readyTasks st.completedTasks st.remaining := by
      rw [hready]; exact List.mem_cons_self t ts
    exact ((mem_readyTasks_iff _ _ _).mp ht).1
  show (((readyTasks st.completedTasks st.remaining).take (m' + 1)).foldl
      (fun r x => removeFirstById x.id r) st.remaining).length
      < st.remaining.length
  rw [hready, List.take_succ_cons, List.foldl_cons]
  calc ((ts.take m').foldl (fun r x => removeFirstById x.id r)
          (removeFirstById t.id st.remaining)).length
      ≤ (removeFirstById t.id st.remaining).length :=
        (foldl_removeFirstById_sublist _ _).length_le
    _ < st.remaining.length :=
        length_removeFirstById_lt t.id st.remaining ⟨t, htmem, rfl⟩

/-- With a positive parallel width, fuel equal to the number of remaining
tasks makes the hybrid loop return. -/
lemma runHybrid_total (env : Env) (m : Nat) (hm : 1 ≤ m) :
    ∀ (fuel : Nat) (st : HybridState), st.remaining.length ≤ fuel →
      ∃ q, runHybrid env m fuel st = some q := by
  intro fuel
  induction fuel with
  | zero =>
    intro st hle
    have hnil : st.remaining = [] :=
      List.eq_nil_of_length_eq_zero (Nat.le_zero.mp hle)
    exact ⟨(st, []), by simp [runHybrid, hybridDone, hnil]⟩
  | succ fuel ih =>
    intro st hle
    by_cases hd : hybridDone st
    · exact ⟨(st, []), by simp [runHybrid, hd]⟩
    · have hne : readyTasks st.completedTasks st.remaining ≠ [] := by
        simp only [hybridDone, Bool.or_eq_true, List.isEmpty_eq_true] at hd
        push_neg at hd
        exact hd.2
      have hlt := runRound_remaining_lt env m st hm hne
      obtain ⟨q, hq⟩ := ih (runRound env m st).1 (by omega)
      exact ⟨(q.1, (runRound env m st).2 :: q.2), by simp [runHybrid, hd, hq]⟩

/-- The loop dispatches at most one batch per unit of fuel. -/
lemma runHybrid_rounds_length_le (env : Env) (m : Nat) :
    ∀ (fuel : Nat) (st stF : HybridState)
      (rounds : List (List OrchestrationTask)),
      runHybrid env m fuel st = some (stF, rounds) → rounds.length ≤ fuel := by
  intro fuel
  induction fuel with
  | zero =>
    intro st stF rounds h
    simp only [runHybrid] at h
    split at h
    · simp only [Option.some.injEq, Prod.mk.injEq] at h
      obtain ⟨-, rfl⟩ := h
      simp
    · exact Option.noConfusion h
  | succ fuel ih =>
    intro st stF rounds h
    simp only [runHybrid] at h
    split at h
    · simp only [Option.some.injEq, Prod.mk.injEq] at h
      obtain ⟨-, rfl⟩ := h
      simp
    · cases hrec : runHybrid env m fuel (runRound env m st).1 with
      | none => rw [hrec] at h; exact Option.noConfusion h
      | some q =>
        rw [hrec, Option.map_some'] at h
        simp only [Option.some.injEq, Prod.mk.injEq] at h
        obtain ⟨-, rfl⟩ := h
        simpa using Nat.succ_le_succ (ih _ _ _ hrec)

/-- Every task dispatched in any round was in the remaining list the loop
started from. -/
lemma runHybrid_rounds_mem_remaining (env : Env) (m : Nat) :
    ∀ (fuel : Nat) (st stF : HybridState)
      (rounds : List (List OrchestrationTask)),
      runHybrid env m fuel st = some (stF, rounds) →
      ∀ i (hi : i < rounds.length), ∀ t ∈ rounds[i], t ∈ st.remaining := by
  intro fuel
  induction fuel with
  | zero =>
    intro st stF rounds h
    simp only [runHybrid] at h
    split at h
    · simp only [Option.some.injEq, Prod.mk.injEq] at h
      obtain ⟨-, rfl⟩ := h
      intro i hi
      simp at hi
    · exact Option.noConfusion h
  | succ fuel ih =>
    intro st stF rounds h
    simp only [runHybrid] at h
    split at h
    · simp only [Option.some.injEq, Prod.mk.injEq] at h
      obtain ⟨-, rfl⟩ := h
      intro i hi
      simp at hi
    · cases hrec : runHybrid env m fuel (runRound env m st).1 with
      | none => rw [hrec] at h; exact Option.noConfusion h
      | some q =>
        rw [hrec, Option.map_some'] at h
        simp only [Option.some.injEq, Prod.mk.injEq] at h
        obtain ⟨-, rfl⟩ := h
        intro i hi t ht
        cases i with
        | zero =>
          simp only [List.getElem_cons_zero] at ht
          have hready : t ∈ readyTasks st.completedTasks st.remaining :=
            List.take_subset _ _ ht
          exact ((mem_readyTasks_iff _ _ _).mp hready).1
        | succ i =>
          simp only [List.getElem_cons_succ] at ht
          have hi' : i < q.2.length := by
            simpa using Nat.lt_of_succ_lt_succ (by simpa using hi)
          have hmem := ih _ _ _ hrec i hi' t ht
          exact (foldl_removeFirstById_sublist _ _).subset hmem

/-- Provenance of satisfied dependencies: every dependency id of a
dispatched task was either already in the completed set when the loop
started, or belongs to a task dispatched in a strictly earlier round. -/
lemma runHybrid_dep_provenance (env : Env) (m : Nat) :
    ∀ (fuel : Nat) (st stF : HybridState)
      (rounds : List (List OrchestrationTask)),
      runHybrid env m fuel st = some (stF, rounds) →
      ∀ i (hi : i < rounds.length), ∀ t ∈ rounds[i], ∀ d ∈ t.dependencies,
        d ∈ st.completedTasks ∨
          ∃ j, ∃ hj : j < rounds.length, j < i ∧
            ∃ u, u ∈ rounds[j] ∧ u.id = d := by
  intro fuel
  induction fuel with
  | zero =>
    intro st stF rounds h
    simp only [runHybrid] at h
    split at h
    · simp only [Option.some.injEq, Prod.mk.injEq] at h
      obtain ⟨-, rfl⟩ := h
      intro i hi
      simp at hi
    · exact Option.noConfusion h
  | succ fuel ih =>
    intro st stF rounds h
    simp only [runHybrid] at h
    split at h
    · simp only [Option.some.injEq, Prod.mk.injEq] at h
      obtain ⟨-, rfl⟩ := h
      intro i hi
      simp at hi
    · cases hrec : runHybrid env m fuel (runRound env m st).1 with
      | none => rw [hrec] at h; exact Option.noConfusion h
      | some q =>
        rw [hrec, Option.map_some'] at h
        simp only [Option.some.injEq, Prod.mk.injEq] at h
        obtain ⟨-, rfl⟩ := h
        intro i hi t ht d hd
        cases i with
        | zero =>
          simp only [List.getElem_cons_zero] at ht
          have hready : t ∈ readyTasks st.completedTasks st.remaining :=
            List.take_subset _ _ ht
          exact Or.inl (((mem_readyTasks_iff _ _ _).mp hready).2 d hd)
        | succ i =>
          simp only [List.getElem_cons_succ] at ht
          have hi' : i < q.2.length := by
            simpa using Nat.lt_of_succ_lt_succ (by simpa using hi)
          rcases ih _ _ _ hrec i hi' t ht d hd with hc | ⟨j, hj, hji, u, hu, hid⟩
          · have hc' : d ∈ st.completedTasks ∨
                d ∈ (runRound env m st).2.map fun x => x.id := by
              have : (runRound env m st).1.completedTasks
                  = st.completedTasks ++ (runRound env m st).2.map fun x => x.id :=
                rfl
              rw [this] at hc
              exact List.mem_append.mp hc
            rcases hc' with hc'' | hc''
            · exact Or.inl hc''
            · obtain ⟨u, hu, hid⟩ := List.mem_map.mp hc''
              refine Or.inr ⟨0, by simp, Nat.succ_pos i, u, ?_, hid⟩
              simpa using hu
          · refine Or.inr ⟨j + 1, by simpa using Nat.succ_lt_succ hj,
              Nat.succ_lt_succ hji, u, ?_, hid⟩
            simpa using hu

/-- executeTask always leaves the task in a terminal status. -/
lemma executeTask_terminal (env : Env) (task : OrchestrationTask) :
    (executeTask env task).1.status = TaskStatus.completed ∨
      (executeTask env task).1.status = TaskStatus.failed := by
  simp only [executeTask]
  split
  · split
    · exact Or.inl rfl
    · exact Or.inr rfl
  · exact Or.inr rfl

/-- Every dependency id of a task the hybrid driver ever dispatches
resolves to some task of the workflow. -/
lemma dispatched_dep_resolves (env : Env) (wf : OrchestrationWorkflow)
    (stF : HybridState) (rounds : List (List OrchestrationTask))
    (hrun : executeHybridWorkflow env wf = some (stF, rounds)) :
    ∀ i (hi : i < rounds.length), ∀ t ∈ rounds[i], ∀ d ∈ t.dependencies,
      ∃ u, u ∈ wf.tasks ∧ u.id = d := by
  intro i hi t ht d hd
  rcases runHybrid_dep_provenance env wf.maxParallelTasks wf.tasks.length
      (initState wf) stF rounds hrun i hi t ht d hd with hc | h
  · exact absurd hc (by simp [initState])
  · obtain ⟨j, hj, -, u, hu, hid⟩ := h
    have hmem := runHybrid_rounds_mem_remaining env wf.maxParallelTasks
      wf.tasks.length (initState wf) stF rounds hrun j hj u hu
    exact ⟨u, by simpa [initState] using hmem, hid⟩

/-! Claim theorems: concrete scenario claims and the executeTask/runRound
contracts. -/

/-- Claim C1 (code_bug evaluation).  The claim says the cyclic two-task
workflow never ends with workflow status 'completed'.  The code violates
it: createWorkflow performs no cycle check (the construction returns an
'initialized' workflow), and running the cycle ends with workflow status
'completed', success = true, and both tasks still 'pending': the hybrid
loop breaks silently on the empty ready set and executeWorkflow then sets
status to 'completed' unconditionally. -/
theorem c1_cyclic_workflow_reports_completed :
    (executeWorkflow trueEnv cycleWorkflow).map (fun o => o.workflowStatus)
        = some WorkflowStatus.completed ∧
    (executeWorkflow trueEnv cycleWorkflow).map
        (fun o => o.finalTasks.map fun t => t.status)
        = some [TaskStatus.pending, TaskStatus.pending] ∧
    (executeWorkflow trueEnv cycleWorkflow).map (fun o => o.success)
        = some true ∧
    (createWorkflow "wf-cycle" "cycle" "cycle"
        [mkTask "A" ["B"], mkTask "B" ["A"]] ExecutionMode.hybrid).status
        = WorkflowStatus.initial := by
  decide

/-- Claim C2 (code_bug evaluation).  The claim says the run status is
'completed' iff every task completed, and 'failed' on a stall.  The code
violates both directions: a one-task workflow whose task fails (agent not
registered) terminates with workflow status 'completed' although its task
has status 'failed', and the stalled cyclic workflow also terminates with
status 'completed' (never 'failed'). -/
theorem c2_completed_despite_failed_task :
    (executeWorkflow trueEnv ghostWorkflow).map
        (fun o => (o.workflowStatus, o.finalTasks.map fun t => t.status))
        = some (WorkflowStatus.completed, [TaskStatus.failed]) ∧
    (executeWorkflow trueEnv ghostWorkflow).map (fun o => o.tasksFailed)
        = some 1 ∧
    (executeWorkflow trueEnv cycleWorkflow).map (fun o => o.workflowStatus)
        ≠ some WorkflowStatus.failed := by
  decide

/-- Claim C3 (counterexample).  In failDepWorkflow, B depends on A and A
fails, yet B does transition out of 'pending': it is dispatched in round 2
and ends 'completed', and the run ends with workflow status 'completed' —
contradicting the claim that B never leaves 'pending' and the run ends
failed/stalled. -/
theorem c3_counterexample_failed_dep_still_runs :
    (executeWorkflow trueEnv failDepWorkflow).map
        (fun o => o.finalTasks.map fun t => (t.id, t.status))
        = some [("A", TaskStatus.failed), ("B", TaskStatus.completed)] ∧
    (executeHybridWorkflow trueEnv failDepWorkflow).map
        (fun p => p.2.map (List.map fun t => t.id))
        = some [["A"], ["B"]] ∧
    (executeWorkflow trueEnv failDepWorkflow).map (fun o => o.workflowStatus)
        = some WorkflowStatus.completed := by
  decide

/-- Claim C3 (amended).  A failed task does not block its dependents:
executeTask always resolves, so the hybrid loop adds every dispatched
task's id to the completed-dependencies set even when its settlement has
success = false; consequently, in the two-task workflow where B depends on
A and A fails, B still becomes ready, is dispatched in the next round,
ends 'completed', and the run ends with workflow status 'completed'
(reporting the failure only through the tasksFailed counter). -/
theorem c3_amended_failed_dep_not_blocking :
    (∀ (env : Env) (m : Nat) (st : HybridState) (t : OrchestrationTask),
      t ∈ (runRound env m st).2 → (executeTask env t).2.success = false →
        t.id ∈ (runRound env m st).1.completedTasks) ∧
    (executeHybridWorkflow trueEnv failDepWorkflow).map
        (fun p => (p.1.completedTasks, p.1.settled.map fun t => (t.id, t.status)))
        = some (["A", "B"],
                [("A", TaskStatus.failed), ("B", TaskStatus.completed)]) ∧
    (executeWorkflow trueEnv failDepWorkflow).map
        (fun o => (o.workflowStatus, o.tasksFailed))
        = some (WorkflowStatus.completed, 1) := by
  refine ⟨?_, by decide, by decide⟩
  intro env m st t ht _
  simp only [runRound, List.mem_append, List.mem_map]
  exact Or.inr ⟨t, ht, rfl⟩

/-- Witness for the amended claim C3: the failing task A of
failDepWorkflow is in the first dispatched batch, its settlement has
success = false, and the theorem puts its id in the completed set. -/
theorem c3_amended_failed_dep_not_blocking_witness :
    ({ mkTask "A" [] with assignedAgent := some "ghost-agent" }
        ∈ (runRound trueEnv 3 (initState failDepWorkflow)).2) ∧
    "A" ∈ (runRound trueEnv 3 (initState failDepWorkflow)).1.completedTasks :=
  ⟨by decide,
   c3_amended_failed_dep_not_blocking.1 trueEnv 3 (initState failDepWorkflow)
     { mkTask "A" [] with assignedAgent := some "ghost-agent" }
     (by decide) (by decide)⟩

/-- Claim C4 (counterexample).  With both the low-priority task L and the
critical-priority task C ready and maxParallelWidth = 1, the engine
dispatches L first: batch selection takes the first maxParallelTasks
ready tasks in insertion order and never consults priority, contradicting
the claimed highest-priority-first selection. -/
theorem c4_counterexample_priority_ignored :
    (executeHybridWorkflow trueEnv priorityWorkflow).map (fun p => p.2)
        = some [[lowTask], [critTask]] ∧
    lowTask.priority = TaskPriority.low ∧
    critTask.priority = TaskPriority.critical ∧
    critTask ∈ readyTasks [] priorityWorkflow.tasks := by
  decide

/-- Claim C4 (amended).  The batch executor selects at most
maxParallelWidth tasks, namely the first maxParallelWidth elements of the
ready set in insertion order (the ready set is a filter of the remaining
list, so relative order is preserved); priority plays no role. -/
theorem c4_amended_batch_is_insertion_order_slice :
    ∀ (env : Env) (m : Nat) (st : HybridState),
      (runRound env m st).2
          = (readyTasks st.completedTasks st.remaining).take m ∧
      (runRound env m st).2.length ≤ m ∧
      (runRound env m st).2.Sublist st.remaining := by
  intro env m st
  refine ⟨rfl, ?_, ?_⟩
  · show ((readyTasks st.completedTasks st.remaining).take m).length ≤ m
    rw [List.length_take]
    exact Nat.min_le_left _ _
  · show ((readyTasks st.completedTasks st.remaining).take m).Sublist
        st.remaining
    exact (List.take_sublist _ _).trans (List.filter_sublist _)

/-- Claim C7.  Scenario {A: deps=[], B: deps=[], C: deps=[A,B]} with
maxParallelWidth = 2 and every invocation succeeding: round 1 dispatches
exactly the batch [A, B], round 2 dispatches [C], every task ends
'completed' and the final workflow status is 'completed' with
success = true. -/
theorem c7_diamond_two_rounds_completed :
    (executeHybridWorkflow trueEnv diamondWorkflow).map (fun p => p.2)
        = some [[diamondA, diamondB], [diamondC]] ∧
    (executeHybridWorkflow trueEnv diamondWorkflow).map
        (fun p => p.1.settled.map fun t => (t.id, t.status))
        = some [("A", TaskStatus.completed), ("B", TaskStatus.completed),
                ("C", TaskStatus.completed)] ∧
    (executeWorkflow trueEnv diamondWorkflow).map
        (fun o => (o.workflowStatus, o.success, o.tasksCompleted, o.tasksFailed))
        = some (WorkflowStatus.completed, true, 3, 0) := by
  decide

/-- Claim C10.  executeTask is total (the source resolves on every path):
its settlement has success = false exactly when the resolved agent id is
not registered or the invocation throws, and success = true otherwise;
and in a hybrid round every dispatched task's id — including a failed
task's — is added to the completed-dependencies set (every allSettled
element is fulfilled). -/
theorem c10_executeTask_total_and_ids_always_join_completed :
    (∀ (env : Env) (task : OrchestrationTask),
      (executeTask env task).2.success = false ↔
        (env.agents.contains (resolveAgent task) = false ∨
          env.invoke (startedWith task (resolveAgent task)) = false)) ∧
    (∀ (env : Env) (m : Nat) (st : HybridState) (t : OrchestrationTask),
      t ∈ (runRound env m st).2 →
        t.id ∈ (runRound env m st).1.completedTasks) := by
  constructor
  · intro env task
    simp only [executeTask]
    cases hA : env.agents.contains (resolveAgent task) with
    | false => simp [hA]
    | true =>
      cases hI : env.invoke (startedWith task (resolveAgent task)) with
      | false => simp [hA, hI]
      | true => simp [hA, hI]
  · intro env m st t ht
    simp only [runRound, List.mem_append, List.mem_map]
    exact Or.inr ⟨t, ht, rfl⟩

/-- Witness for claim C10: the failing ghost task is dispatched in the
first round of its workflow; the theorem characterises its settlement as
success = false and still places its id in the completed set. -/
theorem c10_witness :
    ((executeTask trueEnv ghostTask).2.success = false ↔
      (trueEnv.agents.contains (resolveAgent ghostTask) = false ∨
        trueEnv.invoke (startedWith ghostTask (resolveAgent ghostTask))
          = false)) ∧
    (ghostTask ∈ (runRound trueEnv 3 (initState ghostWorkflow)).2 ∧
      "T" ∈ (runRound trueEnv 3 (initState ghostWorkflow)).1.completedTasks) :=
  ⟨c10_executeTask_total_and_ids_always_join_completed.1 trueEnv ghostTask,
   by decide,
   c10_executeTask_total_and_ids_always_join_completed.2 trueEnv 3
     (initState ghostWorkflow) ghostTask (by decide)⟩

/-! Lemmas about the id rewriting done by createWorkflow. -/

/-- assignIds preserves the number of tasks. -/
lemma assignIds_length (wid : String) :
    ∀ (ts : List OrchestrationTask) (i : Nat),
      (assignIds wid i ts).length = ts.length := by
  intro ts
  induction ts with
  | nil => intro i; rfl
  | cons t ts ih => intro i; simp [assignIds, ih]

/-- Element-wise description of assignIds. -/
lemma assignIds_getElem? (wid : String) :
    ∀ (ts : List OrchestrationTask) (i k : Nat),
      (assignIds wid i ts)[k]? = ts[k]?.map fun t => renamedTask wid (i + k) t := by
  intro ts
  induction ts with
  | nil => intro i k; simp [assignIds]
  | cons t ts ih =>
    intro i k
    cases k with
    | zero => simp [assignIds]
    | succ k =>
      simp only [assignIds, List.getElem?_cons_succ]
      rw [ih (i + 1) k]
      have harith : i + 1 + k = i + (k + 1) := by omega
      rw [harith]

/-- Every member of the rewritten task list is the renaming of the input
task at some index. -/
lemma mem_assignIds (wid : String) (ts : List OrchestrationTask)
    (t' : OrchestrationTask) (h : t' ∈ assignIds wid 0 ts) :
    ∃ k, ∃ hk : k < ts.length, t' = renamedTask wid k ts[k] := by
  obtain ⟨n, hn⟩ := List.mem_iff_getElem?.mp h
  rw [assignIds_getElem? wid ts 0 n] at hn
  obtain ⟨s, hs, hrt⟩ := Option.map_eq_some'.mp hn
  obtain ⟨hlt, hg⟩ := List.getElem?_eq_some_iff.mp hs
  rw [Nat.zero_add] at hrt
  refine ⟨n, hlt, ?_⟩
  rw [hg]
  exact hrt.symm

/-- Claim C5.  In hybrid execution a task is never dispatched — hence
never transitions to 'in-progress' — before every task that its
dependency list names has been dispatched in a strictly earlier round and
settled there with a terminal status ('completed' or 'failed'): each
batch is fully awaited before the next round is scheduled, and
executeTask always leaves a terminal status.  Stated for workflows with
distinct task ids (which createWorkflow guarantees). -/
theorem c5_deps_terminal_before_dispatch (env : Env)
    (wf : OrchestrationWorkflow)
    (hN : (wf.tasks.map fun t => t.id).Nodup)
    (stF : HybridState) (rounds : List (List OrchestrationTask))
    (hrun : executeHybridWorkflow env wf = some (stF, rounds)) :
    ∀ i (hi : i < rounds.length), ∀ t ∈ rounds[i], ∀ d ∈ t.dependencies,
      ∀ u, u ∈ wf.tasks → u.id = d →
        ∃ j, ∃ hj : j < rounds.length, j < i ∧ u ∈ rounds[j] ∧
          ((executeTask env u).1.status = TaskStatus.completed ∨
            (executeTask env u).1.status = TaskStatus.failed) := by
  intro i hi t ht d hd u hu hid
  rcases runHybrid_dep_provenance env wf.maxParallelTasks wf.tasks.length
      (initState wf) stF rounds hrun i hi t ht d hd with hc | h
  · exact absurd hc (by simp [initState])
  · obtain ⟨j, hj, hji, u', hu', hid'⟩ := h
    have hmem : u' ∈ wf.tasks := by
      have := runHybrid_rounds_mem_remaining env wf.maxParallelTasks
        wf.tasks.length (initState wf) stF rounds hrun j hj u' hu'
      simpa [initState] using this
    have heq : u' = u :=
      List.inj_on_of_nodup_map hN hmem hu (show u'.id = u.id by rw [hid', hid])
    exact ⟨j, hj, hji, heq ▸ hu', executeTask_terminal env u⟩

/-- The concrete run of the diamond scenario, used by witnesses. -/
def diamondRun : HybridState × List (List OrchestrationTask) :=
  (executeHybridWorkflow trueEnv diamondWorkflow).getD
    (initState diamondWorkflow, [])

/-- Witness for claim C5 at the diamond scenario: C is dispatched in
round index 1 and depends on "A"; the theorem yields the strictly earlier
round in which A was dispatched, together with A's terminal status. -/
theorem c5_deps_terminal_before_dispatch_witness :
    ((diamondWorkflow.tasks.map fun t => t.id).Nodup ∧
      diamondC ∈ diamondRun.2[1]) ∧
    (∃ j, ∃ hj : j < diamondRun.2.length, j < 1 ∧
      diamondA ∈ diamondRun.2[j] ∧
      ((executeTask trueEnv diamondA).1.status = TaskStatus.completed ∨
        (executeTask trueEnv diamondA).1.status = TaskStatus.failed)) :=
  ⟨⟨by decide, by decide⟩,
   c5_deps_terminal_before_dispatch trueEnv diamondWorkflow (by decide)
     diamondRun.1 diamondRun.2 rfl 1 (by decide) diamondC (by decide)
     "A" (by decide) diamondA (by decide) rfl⟩

/-- Claim C6.  Whenever the hybrid driver dispatches a batch (positive
width, nonempty ready set) the number of non-terminal (remaining) tasks
strictly decreases, and consequently the driver loop of a workflow of N
tasks terminates within at most N rounds. -/
theorem c6_round_progress_and_termination :
    (∀ (env : Env) (m : Nat) (st : HybridState), 1 ≤ m →
      readyTasks st.completedTasks st.remaining ≠ [] →
      (runRound env m st).1.remaining.length < st.remaining.length) ∧
    (∀ (env : Env) (wf : OrchestrationWorkflow), 1 ≤ wf.maxParallelTasks →
      ∃ stF rounds, executeHybridWorkflow env wf = some (stF, rounds) ∧
        rounds.length ≤ wf.tasks.length) := by
  constructor
  · intro env m st hm hne
    exact runRound_remaining_lt env m st hm hne
  · intro env wf hm
    obtain ⟨⟨stF, rounds⟩, hq⟩ := runHybrid_total env wf.maxParallelTasks hm
      wf.tasks.length (initState wf) (by simp [initState])
    exact ⟨stF, rounds, hq,
      runHybrid_rounds_length_le env wf.maxParallelTasks wf.tasks.length
        (initState wf) stF rounds hq⟩

/-- Witness for claim C6 at the diamond scenario (width 2, three
tasks). -/
theorem c6_round_progress_and_termination_witness :
    1 ≤ diamondWorkflow.maxParallelTasks ∧
    (∃ stF rounds,
      executeHybridWorkflow trueEnv diamondWorkflow = some (stF, rounds) ∧
        rounds.length ≤ diamondWorkflow.tasks.length) :=
  ⟨by decide,
   c6_round_progress_and_termination.2 trueEnv diamondWorkflow (by decide)⟩

/-- Workflow built by createWorkflow around a task with an unresolvable
dependency id. -/
def danglingWorkflow : OrchestrationWorkflow :=
  createWorkflow "wfd" "dangling" "dangling"
    [mkTask "t0" [], mkTask "t1" ["missing"]] ExecutionMode.hybrid

/-- Claim C8 (counterexample).  A task set with an unresolvable
dependency id is NOT rejected: createWorkflow performs no validation and
returns an 'initialized' workflow, and the run does start — the
dependency-free task is dispatched and executed, the run ends with
workflow status 'completed', and the dangling task is simply left
'pending'.  No InvalidDependencyError exists anywhere in the code. -/
theorem c8_counterexample_construction_succeeds_and_run_starts :
    danglingWorkflow.status = WorkflowStatus.initial ∧
    (executeHybridWorkflow trueEnv danglingWorkflow).map
        (fun p => p.2.map (List.map fun t => t.id))
        = some [["wfd-task-0"]] ∧
    (executeWorkflow trueEnv danglingWorkflow).map (fun o => o.workflowStatus)
        = some WorkflowStatus.completed ∧
    (executeHybridWorkflow trueEnv danglingWorkflow).map
        (fun p => p.1.remaining.map fun t => (t.id, t.status))
        = some [("wfd-task-1", TaskStatus.pending)] := by
  decide

/-- Claim C8 (amended).  Construction never fails: createWorkflow returns
an 'initialized' workflow for every input (no dependency validation
exists).  The consequence at execution time is that a task whose
dependency id resolves to no task of the workflow is never dispatched:
every dependency id of every dispatched task resolves to some workflow
task. -/
theorem c8_amended_no_validation_dangling_never_dispatched :
    (∀ (wid nm ds : String) (ts : List OrchestrationTask)
        (mo : ExecutionMode),
      (createWorkflow wid nm ds ts mo).status = WorkflowStatus.initial) ∧
    (∀ (env : Env) (wf : OrchestrationWorkflow) (stF : HybridState)
        (rounds : List (List OrchestrationTask)),
      executeHybridWorkflow env wf = some (stF, rounds) →
      ∀ i (hi : i < rounds.length), ∀ t ∈ rounds[i], ∀ d ∈ t.dependencies,
        ∃ u, u ∈ wf.tasks ∧ u.id = d) := by
  constructor
  · intro wid nm ds ts mo
    rfl
  · intro env wf stF rounds hrun
    exact dispatched_dep_resolves env wf stF rounds hrun

/-- The concrete run of failDepWorkflow, used by witnesses. -/
def failDepRun : HybridState × List (List OrchestrationTask) :=
  (executeHybridWorkflow trueEnv failDepWorkflow).getD
    (initState failDepWorkflow, [])

/-- Witness for the amended claim C8: task B of failDepWorkflow is
dispatched in round index 1 with dependency "A", and the theorem resolves
"A" to a task of the workflow. -/
theorem c8_amended_witness :
    ((1 : Nat) < failDepRun.2.length ∧
      mkTask "B" ["A"] ∈ failDepRun.2[1]) ∧
    (∃ u, u ∈ failDepWorkflow.tasks ∧ u.id = "A") :=
  ⟨⟨by decide, by decide⟩,
   c8_amended_no_validation_dangling_never_dispatched.2 trueEnv
     failDepWorkflow failDepRun.1 failDepRun.2 rfl 1 (by decide)
     (mkTask "B" ["A"]) (by decide) "A" (by decide)⟩

/-- Claim C9.  createWorkflow replaces each task's id by
workflowId-task-index while copying the dependency list unchanged; hence
when the input tasks' dependencies refer to other input tasks by their
original ids — ids not of the generated form — no dependency matches any
task id of the created workflow, and hybrid execution dispatches only
dependency-free tasks. -/
theorem c9_id_rewrite_breaks_original_dep_refs
    (wid nm ds : String) (inputs : List OrchestrationTask)
    (mo : ExecutionMode) :
    (createWorkflow wid nm ds inputs mo).tasks.length = inputs.length ∧
    (∀ k, (createWorkflow wid nm ds inputs mo).tasks[k]?
        = inputs[k]?.map fun t => renamedTask wid k t) ∧
    (∀ (k : Nat) (t : OrchestrationTask),
      (renamedTask wid k t).id = wid ++ "-task-" ++ toString k ∧
        (renamedTask wid k t).dependencies = t.dependencies) ∧
    ((∀ s ∈ inputs, ∀ j, j < inputs.length →
        s.id ≠ wid ++ "-task-" ++ toString j) →
      (∀ s ∈ inputs, ∀ t',
          t' ∈ (createWorkflow wid nm ds inputs mo).tasks → t'.id ≠ s.id) ∧
      ((∀ s ∈ inputs, ∀ dep ∈ s.dependencies,
          ∃ s', s' ∈ inputs ∧ dep = s'.id) →
        ∀ (env : Env) (stF : HybridState)
          (rounds : List (List OrchestrationTask)),
          executeHybridWorkflow env (createWorkflow wid nm ds inputs mo)
            = some (stF, rounds) →
          ∀ i (hi : i < rounds.length), ∀ t ∈ rounds[i],
            t.dependencies = [])) := by
  refine ⟨assignIds_length wid inputs 0, ?_, fun k t => ⟨rfl, rfl⟩, ?_⟩
  · intro k
    show (assignIds wid 0 inputs)[k]? = _
    rw [assignIds_getElem? wid inputs 0 k]
    simp [Nat.zero_add]
  · intro horig
    constructor
    · intro s hs t' ht'
      obtain ⟨k, hk, rfl⟩ := mem_assignIds wid inputs t' ht'
      exact fun he => horig s hs k hk he.symm
    · intro hdeps env stF rounds hrun i hi t ht
      by_contra hne
      obtain ⟨d, hd⟩ := List.exists_mem_of_ne_nil _ hne
      obtain ⟨u, hu, huid⟩ :=
        dispatched_dep_resolves env _ stF rounds hrun i hi t ht d hd
      obtain ⟨k, hk, rfl⟩ := mem_assignIds wid inputs u hu
      have htmem : t ∈ (createWorkflow wid nm ds inputs mo).tasks := by
        have := runHybrid_rounds_mem_remaining env
          (createWorkflow wid nm ds inputs mo).maxParallelTasks
          (createWorkflow wid nm ds inputs mo).tasks.length
          (initState (createWorkflow wid nm ds inputs mo)) stF rounds hrun
          i hi t ht
        simpa [initState] using this
      obtain ⟨kt, hkt, rfl⟩ := mem_assignIds wid inputs t htmem
      obtain ⟨s', hs', hdid⟩ :=
        hdeps inputs[kt] (List.getElem_mem hkt) d hd
      have hgen : d = wid ++ "-task-" ++ toString k := huid.symm
      exact horig s' hs' k hk (by rw [← hdid, hgen])

/-- Input tasks whose dependencies refer to each other by original id, as
decomposeRequest produces them. -/
def c9Inputs : List OrchestrationTask :=
  [mkTask "task-A" [], mkTask "task-B" ["task-A"]]

/-- createWorkflow applied to c9Inputs. -/
def c9Workflow : OrchestrationWorkflow :=
  createWorkflow "wf1" "w" "w" c9Inputs ExecutionMode.hybrid

/-- The concrete run of c9Workflow, used by the C9 witness. -/
def c9Run : HybridState × List (List OrchestrationTask) :=
  (executeHybridWorkflow trueEnv c9Workflow).getD (initState c9Workflow, [])

/-- Witness for claim C9: on the concrete two-task input whose second
task refers to the first by its original id, the hypotheses hold and the
theorem shows the task dispatched in round 0 is dependency-free. -/
theorem c9_id_rewrite_breaks_original_dep_refs_witness :
    ((∀ s ∈ c9Inputs, ∀ j, j < c9Inputs.length →
        s.id ≠ "wf1" ++ "-task-" ++ toString j) ∧
      (∀ s ∈ c9Inputs, ∀ dep ∈ s.dependencies,
        ∃ s', s' ∈ c9Inputs ∧ dep = s'.id)) ∧
    (renamedTask "wf1" 0 (mkTask "task-A" [])).dependencies = [] :=
  ⟨⟨by decide, by decide⟩,
   ((c9_id_rewrite_breaks_original_dep_refs "wf1" "w" "w" c9Inputs
       ExecutionMode.hybrid).2.2.2 (by decide)).2 (by decide) trueEnv
     c9Run.1 c9Run.2 rfl 0 (by decide)
     (renamedTask "wf1" 0 (mkTask "task-A" [])) (by decide)⟩

end BoltEcho
